import Mathlib

/-!
Verification of the Excel-to-quotation validation pipeline of the
lexware-angebot-tool backend (`src/server.js`).

The development is a shallow embedding of the pure validation /
payload-construction core:

* `numOrNull`, `toLowerTrim`, `round2` — the numeric and string helpers
  (`src/server.js` lines 300-312);
* `buildUnitPriceFromNetGross`, `buildUnitPriceFromExcel`,
  `buildUnitPriceFromArticle` — the unit-price builders (lines 376-414);
* `processRow` / `processRows` — the body of the `Positionen` row loop of
  `parseExcelAndBuildQuotationPayload` (lines 464-613);
* `buildMain` / `build` — the whole builder (lines 419-640).

Modelling conventions:

* JS numbers are embedded as `ℚ`.  All amounts handled by the pipeline are
  finite decimals, so `ℚ` is exact; the `Number.isFinite` guards of the
  source become `Option ℚ` (`none` = NaN / non-finite).  The
  `Number.EPSILON` fudge term inside `round2` is dropped (it only
  compensates binary floating-point noise).  `Math.round` rounds half
  towards `+∞`, i.e. `⌊x + 1/2⌋`.  The one divergence: for a tax rate of
  exactly `-100` the source produces `Infinity` where the rational model
  yields division by zero (= 0); no theorem below depends on that corner.
* Spreadsheet cells are `CellValue`: a finite number, a string, or
  empty/missing (`sheet_to_json` with `defval: ''` yields `''`, absent
  columns are `undefined`; both are `CellValue.empty` or the empty
  string, and every consumer of the pipeline treats them alike).
* JS string conversion of a number (`String(6.9)`) is abstracted by
  `ratToString`; the pipeline only ever relies on it being non-empty,
  which holds for every JS number.
* `Number(string)` is embedded by `jsParseNumber`, covering the decimal
  grammar (sign, digits, decimal point, exponent, whitespace trimming,
  `"" ↦ 0`).  Exotic forms (hex literals, `Infinity`) are not decimal and
  are mapped to `none`; they are filtered by the `Number.isFinite` guard
  of `numOrNull` anyway, and no claim touches them.
* The alias columns (`quantity`/`qty`/`Menge`, `unitPriceAmount`/`price`,
  …) are resolved by `??`-chains in the source into one effective cell
  per logical field; `PosRow` carries that effective cell directly.
* The article catalog (`getArticleById`, a cached HTTP GET that returns
  the article on 2xx and `null` otherwise) is a fixed lookup function
  `Catalog := String → Option Article`.
* The two wall-clock reads (`new Date()` for `voucherDate` /
  `expirationDate`) become an explicit millisecond timestamp argument
  `now : ℤ`; ISO-8601 rendering is kept as the raw timestamp, which is
  injective in the timestamp exactly like the rendering.
-/

namespace LexwareTool

/-!
Rational arithmetic carrier.  The field operations of `ℚ` are marked
`@[irreducible]` upstream, which blocks kernel evaluation of concrete
builds; the embedding therefore routes all arithmetic through the
`mkRat`-based helpers below.  `qAdd_eq`, `qMul_eq` and `qDiv_eq` prove
they are exactly `+`, `*` and `/` on `ℚ` (with the `x / 0 = 0`
convention of `ℚ`), so every definition reads as the source's arithmetic.
-/

/-- Rational addition (`= a + b`, see `qAdd_eq`). -/
def qAdd (a b : ℚ) : ℚ := mkRat (a.num * b.den + b.num * a.den) (a.den * b.den)

/-- Rational multiplication (`= a * b`, see `qMul_eq`). -/
def qMul (a b : ℚ) : ℚ := mkRat (a.num * b.num) (a.den * b.den)

/-- Rational division (`= a / b`, see `qDiv_eq`). -/
def qDiv (a b : ℚ) : ℚ :=
  if 0 ≤ b.num then mkRat (a.num * b.den) (a.den * b.num.toNat)
  else mkRat (-(a.num * b.den)) (a.den * (-b.num).toNat)

theorem qAdd_eq (a b : ℚ) : qAdd a b = a + b := by
  unfold qAdd
  rw [Rat.add_def, Rat.normalize_eq_mkRat]

theorem qMul_eq (a b : ℚ) : qMul a b = a * b := by
  unfold qMul
  rw [Rat.mul_def, Rat.normalize_eq_mkRat]

theorem qDiv_eq (a b : ℚ) : qDiv a b = a / b := by
  unfold qDiv
  rw [Rat.div_def']
  split_ifs with h
  · rw [Rat.mkRat_eq_divInt]
    congr 1
    push_cast [Int.toNat_of_nonneg h]
    ring
  · rw [Rat.mkRat_eq_divInt]
    have hcast : ((a.den * (-b.num).toNat : ℕ) : ℤ) = (a.den : ℤ) * -b.num := by
      push_cast [Int.toNat_of_nonneg (by omega : (0 : ℤ) ≤ -b.num)]
      ring
    rw [hcast, show (a.den : ℤ) * -b.num = -((a.den : ℤ) * b.num) by ring,
      Rat.divInt_neg, neg_neg]

/-- A spreadsheet cell as handed to the pipeline by
`XLSX.utils.sheet_to_json(sh, { defval: '' })`: a finite number, a string,
or an absent value (`undefined` for a column that is missing entirely). -/
inductive CellValue where
  | num (q : ℚ)
  | str (s : String)
  | empty
deriving DecidableEq

/-- JS truthiness of a cell value: numbers are truthy unless `0`, strings
unless empty, `undefined` is falsy. -/
def cellTruthy : CellValue → Bool
  | .num q => if q = 0 then false else true
  | .str s => if s = "" then false else true
  | .empty => false

/-- Abstraction of JS `String(n)` on a (finite) number: some non-empty
decimal rendering.  The pipeline only depends on non-emptiness. -/
def ratToString (q : ℚ) : String :=
  toString q.num ++ (if q.den = 1 then "" else "/" ++ toString q.den)

/-- The string content of a cell (`String(v)` for the truthy cells the
pipeline ever converts). -/
def cellRawString : CellValue → String
  | .num q => ratToString q
  | .str s => s
  | .empty => ""

/-- JS `String(v || d)`: the cell's string if the cell is truthy, else the
default `d`. -/
def jsStringOr (c : CellValue) (d : String) : String :=
  if cellTruthy c then cellRawString c else d

/-- JS `String(v || '')`. -/
def jsStr (c : CellValue) : String := jsStringOr c ""

/-- The whitespace class of JS `String.prototype.trim` (restricted to the
ASCII whitespace that spreadsheet cells carry). -/
def isJsSpace (c : Char) : Bool :=
  c = ' ' || c = '\t' || c = '\n' || c = '\r' || c = '\x0b' || c = '\x0c'

/-- JS `s.trim()`. -/
def jsTrim (s : String) : String :=
  String.mk (((s.toList.dropWhile isJsSpace).reverse.dropWhile isJsSpace).reverse)

/-- Lower-case one character (ASCII, all the pipeline compares against). -/
def lowerChar (c : Char) : Char :=
  if 'A' ≤ c ∧ c ≤ 'Z' then Char.ofNat (c.toNat + 32) else c

/-- JS `s.toLowerCase()`. -/
def jsToLower (s : String) : String := String.mk (s.toList.map lowerChar)

/-- Digit list to natural number. -/
def digitsToNat (ds : List Char) : Nat :=
  ds.foldl (fun a c => a * 10 + (c.toNat - 48)) 0

/-- Parse an unsigned decimal mantissa (`123`, `123.`, `123.45`, `.45`);
returns the value and the unconsumed rest, or `none` when no digits are
present at all. -/
def parseUnsignedDecimal (cs : List Char) : Option (ℚ × List Char) :=
  let intPart := cs.takeWhile Char.isDigit
  let rest1 := cs.dropWhile Char.isDigit
  match rest1 with
  | '.' :: rest2 =>
      let fracPart := rest2.takeWhile Char.isDigit
      let rest3 := rest2.dropWhile Char.isDigit
      if intPart.isEmpty && fracPart.isEmpty then none
      else some (qAdd (mkRat (digitsToNat intPart) 1)
        (mkRat (digitsToNat fracPart) (10 ^ fracPart.length)), rest3)
  | _ =>
      if intPart.isEmpty then none
      else some (mkRat (digitsToNat intPart) 1, rest1)

/-- Parse the digits of an exponent after `e`/`E`, with optional sign. -/
def parseExpTail (cs : List Char) : Option (Int × List Char) :=
  let signAndRest : Int × List Char :=
    match cs with
    | '+' :: r => (1, r)
    | '-' :: r => (-1, r)
    | r => (1, r)
  let ds := signAndRest.2.takeWhile Char.isDigit
  let rest := signAndRest.2.dropWhile Char.isDigit
  if ds.isEmpty then none else some (signAndRest.1 * (digitsToNat ds : Int), rest)

/-- Parse an optional exponent part. -/
def parseExponent : List Char → Option (Int × List Char)
  | 'e' :: rest => parseExpTail rest
  | 'E' :: rest => parseExpTail rest
  | cs => some (0, cs)

/-- `10 ^ e` for a signed exponent. -/
def tenPow (e : Int) : ℚ :=
  if 0 ≤ e then mkRat (10 ^ e.toNat) 1 else mkRat 1 (10 ^ (-e).toNat)

/-- Embedding of JS `Number(s)` on strings, restricted to the decimal
grammar: optional sign, digits with optional decimal point, optional
exponent, surrounding whitespace ignored; the empty (or all-blank) string
is `0`; anything else — in particular a comma used as decimal separator —
is NaN (`none`). -/
def jsParseNumber (s : String) : Option ℚ :=
  let t := jsTrim s
  if t = "" then some 0
  else
    let cs := t.toList
    let signAndRest : ℚ × List Char :=
      match cs with
      | '+' :: r => (1, r)
      | '-' :: r => (-1, r)
      | r => (1, r)
    match parseUnsignedDecimal signAndRest.2 with
    | none => none
    | some (m, rest) =>
      match parseExponent rest with
      | none => none
      | some (e, rest2) =>
        if rest2.isEmpty then some (qMul (qMul signAndRest.1 m) (tenPow e)) else none

/-- `numOrNull` (src/server.js:300-304): `''`, `null` and `undefined` are
`null`; otherwise `Number(v)`, with non-finite results (NaN, Infinity)
mapped to `null`. -/
def numOrNull : CellValue → Option ℚ
  | .empty => none
  | .str s => if s = "" then none else jsParseNumber s
  | .num q => some q

/-- `toLowerTrim` (src/server.js:306-308): `String(v || '').trim().toLowerCase()`. -/
def toLowerTrim (c : CellValue) : String := jsToLower (jsTrim (jsStr c))

/-- `round2` (src/server.js:310-312): round to 2 decimals, halves towards
`+∞` (JS `Math.round`); the `Number.EPSILON` term is float noise and
dropped. -/
def round2 (q : ℚ) : ℚ := mkRat ⌊qAdd (qMul q 100) (mkRat 1 2)⌋ 100

theorem round2_eq (q : ℚ) : round2 q = ((⌊q * 100 + 1 / 2⌋ : ℤ) : ℚ) / 100 := by
  unfold round2
  rw [qAdd_eq, qMul_eq, Rat.mkRat_eq_div]
  norm_num

/-- The `price` object of a catalog article
(`{ netPrice?, grossPrice?, taxRate? }`). -/
structure ArticlePrice where
  netPrice : Option ℚ
  grossPrice : Option ℚ
  taxRate : Option ℚ
deriving DecidableEq

/-- A catalog article as returned by `getArticleById` on a 2xx response. -/
structure Article where
  title : Option String
  price : Option ArticlePrice
deriving DecidableEq

/-- The catalog-lookup collaborator with fixed responses:
`getArticleById` (src/server.js:324-341) returns the article body on a
2xx response and `null` on not-found or any non-2xx status. -/
def Catalog : Type := String → Option Article

/-- A `unitPrice` object as emitted into the payload.  `netAmount` and
`grossAmount` are `Option` to record which keys the JS object carries
(the source always sets both). -/
structure UnitPrice where
  currency : String
  netAmount : Option ℚ
  grossAmount : Option ℚ
  taxRatePercentage : ℚ
deriving DecidableEq

/-- `buildUnitPriceFromNetGross` (src/server.js:376-392): derive the
missing side of net/gross via the tax rate (default 19), round both to 2
decimals, currency fixed to EUR; `null` when both sides are absent. -/
def buildUnitPriceFromNetGross (net gross : Option ℚ) (taxRate : Option ℚ) :
    Option UnitPrice :=
  let tr := taxRate.getD 19
  let netAmount0 := net
  let grossAmount0 := gross
  let netAmount :=
    if netAmount0.isNone && grossAmount0.isSome then
      some (qDiv (grossAmount0.getD 0) (qAdd 1 (qDiv tr 100)))
    else netAmount0
  let grossAmount :=
    if grossAmount0.isNone && netAmount.isSome then
      some (qMul (netAmount.getD 0) (qAdd 1 (qDiv tr 100)))
    else grossAmount0
  if netAmount.isNone || grossAmount.isNone then none
  else some { currency := "EUR", netAmount := some (round2 (netAmount.getD 0)),
              grossAmount := some (round2 (grossAmount.getD 0)),
              taxRatePercentage := tr }

/-- `buildUnitPriceFromExcel` (src/server.js:394-403): a spreadsheet
amount is the gross side when `taxType` is `gross`, the net side
otherwise.  (The source's `Number.isFinite` guard is vacuous here: the
amount always comes from `numOrNull`.) -/
def buildUnitPriceFromExcel (taxType : String) (amount : ℚ) (taxRate : ℚ) :
    Option UnitPrice :=
  if jsTrim taxType = "gross" then
    buildUnitPriceFromNetGross none (some amount) (some taxRate)
  else
    buildUnitPriceFromNetGross (some amount) none (some taxRate)

/-- `buildUnitPriceFromArticle` (src/server.js:405-414): price from the
catalog article's `price` object; `null` when the article has none. -/
def buildUnitPriceFromArticle (articleObj : Option Article) : Option UnitPrice :=
  match articleObj.bind Article.price with
  | none => none
  | some p => buildUnitPriceFromNetGross p.netPrice p.grossPrice (some (p.taxRate.getD 19))

/-- One entry of the `errors` list: `{sheet, row?, field?, message}`. -/
structure ErrEntry where
  sheet : String
  row : Option Nat
  field : Option String
  message : String
deriving DecidableEq

/-- One entry of the `warnings` list: `{sheet, row, message}`. -/
structure Warn where
  sheet : String
  row : Nat
  message : String
deriving DecidableEq

/-- One entry of `autoNamedLineItems`: `{row, articleId, name}`. -/
structure AutoNamed where
  row : Nat
  articleId : Option String
  name : String
deriving DecidableEq

/-- A line item as pushed into the payload's `lineItems`.  Fields the JS
object omits for a given row kind are `none`. -/
structure LineItem where
  type : String
  name : String
  description : Option String
  quantity : Option ℚ
  unitName : Option String
  id : Option String
  unitPrice : Option UnitPrice
  discountPercentage : Option ℚ
deriving DecidableEq

/-- One raw row of the `Positionen` sheet, with the `??`-alias chains of
the source (`quantity ?? qty ?? Menge …`, `unitPriceAmount ?? price …`)
already resolved to one effective cell per logical field. -/
structure PosRow where
  type : CellValue
  articleId : CellValue
  name : CellValue
  description : CellValue
  quantity : CellValue
  unitName : CellValue
  unitPriceAmount : CellValue
  taxRatePercentage : CellValue
  discountPercent : CellValue
deriving DecidableEq

/-- The `Angebot` metadata after key/value extraction.  `currency` is a
column a workbook may carry; the builder never reads it (claim C10). -/
structure Angebot where
  taxType : CellValue
  currency : CellValue
deriving DecidableEq

/-- The `Kunde` sheet after key/value extraction. -/
structure Kunde where
  name : CellValue
  contactId : CellValue
  street : CellValue
  zip : CellValue
  city : CellValue
  countryCode : CellValue
  contactPerson : CellValue
  email : CellValue
  phone : CellValue
deriving DecidableEq

/-- An input workbook: each required sheet is `none` when missing. -/
structure Workbook where
  angebot : Option Angebot
  kunde : Option Kunde
  positionen : Option (List PosRow)
deriving DecidableEq

/-- JS truthiness of a parsed number (`null` and `0` are falsy). -/
def optTruthy : Option ℚ → Bool
  | some q => if q = 0 then false else true
  | none => false

/-- JS `qty > 0` on a possibly-`null` number (`null > 0` is `false`). -/
def qtyPos : Option ℚ → Bool
  | some q => if 0 < q then true else false
  | none => false

/-- `s || undefined`: `none` for the empty string. -/
def strOpt (s : String) : Option String := if s = "" then none else some s

/-- JS `o || d` on an optional string (missing or empty falls back). -/
def jsOrDefault (o : Option String) (d : String) : String :=
  match o with
  | some t => if t = "" then d else t
  | none => d

/-- `const type = toLowerTrim(row.type)` (src/server.js:468). -/
def rowType (row : PosRow) : String := toLowerTrim row.type

/-- `String(row.articleId || row.articleID || '').trim()` (line 469). -/
def rowArticleId (row : PosRow) : String := jsTrim (jsStr row.articleId)

/-- `String(row.name || '').trim()` (line 471). -/
def rowName (row : PosRow) : String := jsTrim (jsStr row.name)

/-- `String(row.description || '').trim()` (line 472). -/
def rowDescription (row : PosRow) : String := jsTrim (jsStr row.description)

/-- `numOrNull(row.quantity ?? row.qty ?? …)` (line 474). -/
def rowQty (row : PosRow) : Option ℚ := numOrNull row.quantity

/-- `String(row.unitName || row.unit || '').trim()` (line 475). -/
def rowUnitName (row : PosRow) : String := jsTrim (jsStr row.unitName)

/-- `numOrNull(row.unitPriceAmount ?? row.unitPrice ?? row.price ?? row.Preis)` (line 477). -/
def rowUnitPriceAmount (row : PosRow) : Option ℚ := numOrNull row.unitPriceAmount

/-- `numOrNull(row.taxRatePercentage ?? row.taxRate ?? row.tax)` (line 478). -/
def rowTaxRate (row : PosRow) : Option ℚ := numOrNull row.taxRatePercentage

/-- `numOrNull(row.discountPercent ?? row.discount)` (line 479). -/
def rowDiscount (row : PosRow) : Option ℚ := numOrNull row.discountPercent

/-- The blank-row test `hasAny` (src/server.js:481): any recognized field
truthy after extraction. -/
def rowHasAny (row : PosRow) : Bool :=
  rowType row != "" || rowArticleId row != "" || rowName row != "" ||
  rowDescription row != "" || optTruthy (rowQty row) || rowUnitName row != "" ||
  optTruthy (rowUnitPriceAmount row) || optTruthy (rowTaxRate row) ||
  optTruthy (rowDiscount row)

/-- `canUseExcelPrice` (src/server.js:551-554): a spreadsheet price is
honored when present, the type is not `material`/`service`, and not a
`custom` row with an `articleId` while the override flag is off. -/
def canUseExcelPrice (type articleId : String) (amount : Option ℚ)
    (allow : Bool) : Bool :=
  amount.isSome &&
  (if type = "material" ∨ type = "service" then false else true) &&
  (if type = "custom" ∧ articleId ≠ "" ∧ allow = false then false else true)

/-- Everything one iteration of the `Positionen` loop contributes to the
accumulators: at most one line item, at most one error (each `push` of an
error is followed by `continue`), the `byType` tally key (`typed`), and
the warnings / auto-name records pushed before the row settled. -/
structure RowResult where
  item : Option LineItem
  error : Option ErrEntry
  typed : Option String
  warns : List Warn
  autoNamed : List AutoNamed
deriving DecidableEq

/-- A skipped blank row. -/
def RowResult.blank : RowResult := ⟨none, none, none, [], []⟩

/-- A row that ended in `errors.push(…); continue`. -/
def rowErr (excelRow : Nat) (f msg : String) (typed : Option String)
    (warns : List Warn) (autos : List AutoNamed) : RowResult :=
  ⟨none, some ⟨"Positionen", some excelRow, some f, msg⟩, typed, warns, autos⟩

/-- A row that ended in `lineItems.push(item)`. -/
def rowItem (li : LineItem) (typed : String) (warns : List Warn)
    (autos : List AutoNamed) : RowResult :=
  ⟨some li, none, some typed, warns, autos⟩

/-- The tail of the loop body after the `item` skeleton is built
(src/server.js:605-612): attach the discount, final `unitPrice` guard,
push. -/
def finishItem (excelRow : Nat) (li : LineItem) (discountPercent : Option ℚ)
    (typed : String) (warns : List Warn) (autos : List AutoNamed) : RowResult :=
  let li2 := match discountPercent with
    | some d => { li with discountPercentage := some d }
    | none => li
  if li2.unitPrice.isNone then
    rowErr excelRow "unitPrice" "unitPrice fehlt (würde Lexware 406 auslösen)." (some typed) warns autos
  else rowItem li2 typed warns autos

/-- The part of the loop body after the article lookup succeeded (or no
`articleId` was given): name fallback (src/server.js:526-536), item
skeleton (538-548) and price resolution (550-612). -/
def processRowTail (allow : Bool) (taxType : String) (excelRow : Nat)
    (row : PosRow) (articleObj : Option Article) : RowResult :=
  let type := rowType row
  let articleId := rowArticleId row
  let name0 := rowName row
  let description := rowDescription row
  let qty := rowQty row
  let unitName := rowUnitName row
  let unitPriceAmount := rowUnitPriceAmount row
  let taxRatePercentage := rowTaxRate row
  let discountPercent := rowDiscount row
  let step1 : String × List Warn × List AutoNamed :=
    if name0 = "" ∧ articleId ≠ "" then
      let autoName := jsOrDefault (articleObj.bind Article.title) ("Artikel " ++ articleId)
      (autoName,
        [⟨"Positionen", excelRow, "Name war leer → automatisch aus Artikel ergänzt: \"" ++ autoName ++ "\"."⟩],
        [⟨excelRow, some articleId, autoName⟩])
    else (name0, [], [])
  let step2 : String × List Warn × List AutoNamed :=
    if step1.1 = "" then
      let nm := "Position " ++ toString excelRow
      (nm,
        [⟨"Positionen", excelRow, "Name war leer → automatisch gesetzt: \"" ++ nm ++ "\"."⟩],
        [⟨excelRow, (if articleId = "" then none else some articleId), nm⟩])
    else (step1.1, [], [])
  let name := step2.1
  let warnsN := step1.2.1 ++ step2.2.1
  let autosN := step1.2.2 ++ step2.2.2
  let base : LineItem :=
    { type := type, name := name, description := strOpt description,
      quantity := qty, unitName := some unitName,
      id := if articleId ≠ "" ∧ (type = "material" ∨ type = "service")
            then some articleId else none,
      unitPrice := none, discountPercentage := none }
  if canUseExcelPrice type articleId unitPriceAmount allow then
    match buildUnitPriceFromExcel taxType (unitPriceAmount.getD 0) (taxRatePercentage.getD 19) with
    | none => rowErr excelRow "unitPriceAmount" "unitPrice konnte aus Excel nicht gebaut werden." (some type) warnsN autosN
    | some up => finishItem excelRow { base with unitPrice := some up } discountPercent type warnsN autosN
  else
    if articleId ≠ "" then
      match buildUnitPriceFromArticle articleObj with
      | none => rowErr excelRow "unitPriceAmount"
          ("unitPrice fehlt/ist unvollständig im Artikelstamm (articleId=" ++ articleId ++ ").")
          (some type) warnsN autosN
      | some up =>
        let warnsP :=
          if unitPriceAmount.isNone ∨ type = "material" ∨ type = "service" then
            [⟨"Positionen", excelRow, "Preis automatisch aus Artikelstamm gesetzt (articleId=" ++ articleId ++ ")."⟩]
          else []
        finishItem excelRow { base with unitPrice := some up } discountPercent type (warnsN ++ warnsP) autosN
    else
      if unitPriceAmount.isNone then
        rowErr excelRow "unitPriceAmount" "Preis ist Pflicht, wenn keine articleId gesetzt ist." (some type) warnsN autosN
      else
        match buildUnitPriceFromExcel taxType (unitPriceAmount.getD 0) (taxRatePercentage.getD 19) with
        | none => rowErr excelRow "unitPriceAmount" "unitPrice konnte aus Excel nicht gebaut werden." (some type) warnsN autosN
        | some up => finishItem excelRow { base with unitPrice := some up } discountPercent type warnsN autosN

/-- One iteration of the `for` loop over the `Positionen` rows
(src/server.js:464-613); `i` is the 0-based index, `i + 2` the
spreadsheet row number. -/
def processRow (cat : Catalog) (allow : Bool) (taxType : String) (i : Nat)
    (row : PosRow) : RowResult :=
  let excelRow := i + 2
  if !rowHasAny row then RowResult.blank
  else if rowType row = "" then
    rowErr excelRow "type" "type ist Pflicht." none [] []
  else if rowType row = "text" then
    let txtName :=
      if rowName row ≠ "" then rowName row
      else if rowDescription row ≠ "" then rowDescription row
      else "Hinweis " ++ toString excelRow
    rowItem { type := "text", name := txtName,
              description := strOpt (rowDescription row), quantity := none,
              unitName := none, id := none, unitPrice := none,
              discountPercentage := none } (rowType row) [] []
  else if !qtyPos (rowQty row) then
    rowErr excelRow "qty" "qty muss größer als 0 sein." (some (rowType row)) [] []
  else if rowUnitName row = "" then
    rowErr excelRow "unitName" "unitName ist Pflicht." (some (rowType row)) [] []
  else if (rowType row = "material" ∨ rowType row = "service") ∧ rowArticleId row = "" then
    rowErr excelRow "articleId" "articleId ist Pflicht bei type=material/service." (some (rowType row)) [] []
  else
    let articleObj : Option Article :=
      if rowArticleId row = "" then none else cat (rowArticleId row)
    if rowArticleId row ≠ "" ∧ articleObj.isNone then
      rowErr excelRow "articleId"
        ("Artikel konnte nicht geladen werden (articleId=" ++ rowArticleId row ++ ").")
        (some (rowType row)) [] []
    else processRowTail allow taxType excelRow row articleObj

/-- The whole `Positionen` loop, `i` the 0-based index of the first row. -/
def processRows (cat : Catalog) (allow : Bool) (taxType : String) :
    Nat → List PosRow → List RowResult
  | _, [] => []
  | i, r :: rest =>
      processRow cat allow taxType i r :: processRows cat allow taxType (i + 1) rest

/-- The `lineItems` array accumulated by the loop. -/
def collectItems (rs : List RowResult) : List LineItem := rs.filterMap RowResult.item

/-- The row-level `errors` entries accumulated by the loop. -/
def collectErrors (rs : List RowResult) : List ErrEntry := rs.filterMap RowResult.error

/-- The `warnings` entries accumulated by the loop. -/
def collectWarns (rs : List RowResult) : List Warn := rs.flatMap RowResult.warns

/-- The `autoNamedLineItems` entries accumulated by the loop. -/
def collectAuto (rs : List RowResult) : List AutoNamed := rs.flatMap RowResult.autoNamed

/-- `byType[t] = (byType[t] || 0) + 1` on an insertion-ordered map. -/
def bumpType : List (String × Nat) → String → List (String × Nat)
  | [], t => [(t, 1)]
  | (k, n) :: rest, t =>
      if k = t then (k, n + 1) :: rest else (k, n) :: bumpType rest t

/-- The `byType` tally accumulated by the loop. -/
def collectByType (rs : List RowResult) : List (String × Nat) :=
  rs.foldl (fun m r => match r.typed with | some t => bumpType m t | none => m) []

/-- The `address` object of the payload (src/server.js:450-460); fields
that are `undefined` in the JS object are `none`. -/
structure Address where
  name : Option String
  contactId : Option String
  street : Option String
  zip : Option String
  city : Option String
  countryCode : String
  contactPerson : Option String
  email : Option String
  phone : Option String
deriving DecidableEq

/-- The quotation payload (src/server.js:629-637).  `voucherDate` and
`expirationDate` carry the millisecond timestamps whose ISO rendering the
source emits; `taxConditionsTaxType` is the `taxConditions.taxType`
object (`none` when `taxType` was empty — only reachable together with an
error). -/
structure Payload where
  voucherDate : Int
  expirationDate : Int
  address : Address
  lineItems : List LineItem
  totalPriceCurrency : String
  taxConditionsTaxType : Option String
  shippingType : String
deriving DecidableEq

/-- The `summary` object of the normal (post-sheet-check) return
(src/server.js:617-625). -/
structure Summary where
  errors : List ErrEntry
  warnings : List Warn
  byType : List (String × Nat)
  autoNamedLineItems : List AutoNamed
  allowPriceOverrideUsed : Bool
  voucherDate : Int
  taxType : String
deriving DecidableEq

/-- The result of `parseExcelAndBuildQuotationPayload`: either the early
return on a missing sheet (src/server.js:431-434, whose summary has only
`errors` and `warnings`), or the full result (lines 627-639). -/
inductive BuildResult where
  | sheetsMissing (errors : List ErrEntry) (warnings : List Warn)
  | done (payload : Option Payload) (summary : Summary)
deriving DecidableEq

/-- The sheet-presence errors (src/server.js:431-433), in push order. -/
def missingSheetErrors (wb : Workbook) : List ErrEntry :=
  (if wb.angebot.isNone then [⟨"Angebot", none, none, "Sheet „Angebot“ fehlt."⟩] else []) ++
  (if wb.kunde.isNone then [⟨"Kunde", none, none, "Sheet „Kunde“ fehlt."⟩] else []) ++
  (if wb.positionen.isNone then [⟨"Positionen", none, none, "Sheet „Positionen“ fehlt."⟩] else [])

/-- The terminal decision (src/server.js:627-639): with a non-empty
`errors` list return `payload: null` and the summary, else the payload
and the summary. -/
def finalize (payload : Payload) (summary : Summary) : BuildResult :=
  .done (if summary.errors.isEmpty then some payload else none) summary

/-- The main path of `parseExcelAndBuildQuotationPayload` once all three
sheets are present (src/server.js:436-639). -/
def buildMain (a : Angebot) (k : Kunde) (rows : List PosRow) (cat : Catalog)
    (allow : Bool) (now : Int) : BuildResult :=
  let taxType := jsTrim (jsStr a.taxType)
  let metaErrs :=
    (if taxType = "" then
      [⟨"Angebot", some 2, some "taxType", "taxType ist Pflicht (z. B. „gross“ oder „net“)."⟩]
     else ([] : List ErrEntry)) ++
    (if jsTrim (jsStr k.name) = "" then
      [⟨"Kunde", some 2, some "name", "Kundenname ist Pflicht."⟩]
     else []) ++
    (if taxType = "" then
      [⟨"Angebot", some 2, some "taxConditions", "taxConditions.taxType ist Pflicht."⟩]
     else [])
  let customerName := jsTrim (jsStr k.name)
  let address : Address :=
    { name := strOpt customerName,
      contactId := strOpt (jsTrim (jsStr k.contactId)),
      street := strOpt (jsTrim (jsStr k.street)),
      zip := strOpt (jsTrim (jsStr k.zip)),
      city := strOpt (jsTrim (jsStr k.city)),
      countryCode :=
        (let c := jsTrim (jsStringOr k.countryCode "DE")
         if c = "" then "DE" else c),
      contactPerson := strOpt (jsTrim (jsStr k.contactPerson)),
      email := strOpt (jsTrim (jsStr k.email)),
      phone := strOpt (jsTrim (jsStr k.phone)) }
  let results := processRows cat allow taxType 0 rows
  let lineItems := collectItems results
  let errors := metaErrs ++ collectErrors results ++
    (if lineItems.isEmpty then [⟨"Positionen", none, none, "Keine Positionen gefunden."⟩] else [])
  let summary : Summary :=
    { errors := errors, warnings := collectWarns results,
      byType := collectByType results, autoNamedLineItems := collectAuto results,
      allowPriceOverrideUsed := allow, voucherDate := now, taxType := taxType }
  let payload : Payload :=
    { voucherDate := now, expirationDate := now + 30 * 24 * 3600 * 1000,
      address := address, lineItems := lineItems, totalPriceCurrency := "EUR",
      taxConditionsTaxType := strOpt taxType, shippingType := "none" }
  finalize payload summary

/-- `parseExcelAndBuildQuotationPayload` (src/server.js:419-640) as a
function of the workbook, the (fixed) catalog responses, the resolved
override flag and the invocation time. -/
def build (wb : Workbook) (cat : Catalog) (allow : Bool) (now : Int) : BuildResult :=
  match wb.angebot, wb.kunde, wb.positionen with
  | some a, some k, some rows => buildMain a k rows cat allow now
  | _, _, _ => .sheetsMissing (missingSheetErrors wb) []

/-- The payload of a build result (`null` on the error paths). -/
def resultPayload : BuildResult → Option Payload
  | .sheetsMissing _ _ => none
  | .done p _ => p

/-- The `errors` list of a build result. -/
def resultErrors : BuildResult → List ErrEntry
  | .sheetsMissing e _ => e
  | .done _ s => s.errors

/-- The flag resolution of the HTTP handlers (src/server.js:943, 986):
`typeof allowPriceOverride === 'boolean' ? allowPriceOverride :
ALLOW_PRICE_OVERRIDE_DEFAULT`. -/
def resolveAllowPriceOverride (body : Option Bool) (dflt : Bool) : Bool :=
  body.getD dflt

/-- Erase the two time-derived payload fields. -/
def stripTimePayload (p : Payload) : Payload :=
  { p with voucherDate := 0, expirationDate := 0 }

/-- Erase the time-derived summary field. -/
def stripTimeSummary (s : Summary) : Summary := { s with voucherDate := 0 }

/-- Erase every time-derived field of a build result. -/
def stripTime : BuildResult → BuildResult
  | .sheetsMissing e w => .sheetsMissing e w
  | .done p s => .done (p.map stripTimePayload) (stripTimeSummary s)

/-! ### Concrete fixtures used by witnesses and counterexamples -/

/-- An empty `Positionen` cell row field set. -/
def blankCells : PosRow :=
  ⟨.empty, .empty, .empty, .empty, .empty, .empty, .empty, .empty, .empty⟩

/-- The catalog with no articles (every lookup fails / non-2xx). -/
def emptyCatalog : Catalog := fun _ => none

/-- A catalog holding the single article `a1`: net price 7, tax rate 19,
title `Shirt`. -/
def catalogA : Catalog := fun id =>
  if id = "a1" then some ⟨some "Shirt", some ⟨some 7, none, some 19⟩⟩ else none

/-- A fully valid `custom` row priced `6.9` from the sheet. -/
def rowOkItem : PosRow :=
  { blankCells with
    type := .str "custom", name := .str "DTF Druck",
    quantity := .num 5, unitName := .str "Stk",
    unitPriceAmount := .num (mkRat 69 10) }

/-- A well-formed workbook: `taxType net`, customer `Acme GmbH`, one
`custom` row priced `6.9` from the sheet. -/
def wbOk : Workbook :=
  { angebot := some ⟨.str "net", .empty⟩,
    kunde := some ⟨.str "Acme GmbH", .empty, .empty, .empty, .empty, .empty, .empty, .empty, .empty⟩,
    positionen := some [rowOkItem] }

/-- A fallback payload value for total functions over `Option Payload`. -/
def dummyPayload : Payload :=
  ⟨0, 0, ⟨none, none, none, none, none, "DE", none, none, none⟩, [], "EUR", none, "none"⟩

/-- A fallback line item. -/
def dummyItem : LineItem := ⟨"", "", none, none, none, none, none, none⟩

/-- The payload `wbOk` builds at time 0. -/
def payloadOk : Payload := (resultPayload (build wbOk emptyCatalog true 0)).getD dummyPayload

/-- The single line item of `payloadOk`. -/
def itemOk : LineItem := payloadOk.lineItems.getD 0 dummyItem

/-- A `custom` row whose price cell holds the comma-string `"6,9"`. -/
def rowCommaPrice : PosRow :=
  { blankCells with
    type := .str "custom", name := .str "Druck",
    quantity := .num 1, unitName := .str "Stk",
    unitPriceAmount := .str "6,9" }

/-!  ### C1 — decimal-comma parsing  -/

/-- C1 counterexample: the validation pipeline's `numOrNull` applied to
the cell string `"6,9"` yields `null` (the `Number("6,9")` result NaN is
filtered by the `Number.isFinite` guard) — not the number `6.9` the claim
asserts, and not `69`. -/
theorem c1_comma_is_nan_counterexample :
    numOrNull (CellValue.str "6,9") = none ∧
    some (mkRat 69 10) ≠ (none : Option ℚ) := by
  exact ⟨by decide, by decide⟩

/-- C1 amended: only a dot is accepted as decimal separator
(`"6.9" ↦ 6.9`); a comma amount such as `"6,9"` parses to NaN and is
treated as absent — not as `6.9`, `69` or `0` — so a priced row whose
only price is `"6,9"` and that has no `articleId` fails with the
missing-price error rather than being priced at zero. -/
theorem c1_comma_decimal_amended :
    numOrNull (CellValue.str "6.9") = some (mkRat 69 10) ∧
    numOrNull (CellValue.str "6,9") = none ∧
    numOrNull (CellValue.str "abc") = none ∧
    numOrNull (CellValue.str "69") = some 69 ∧
    (processRow emptyCatalog false "net" 0 rowCommaPrice).error =
      some ⟨"Positionen", some 2, some "unitPriceAmount",
            "Preis ist Pflicht, wenn keine articleId gesetzt ist."⟩ ∧
    (processRow emptyCatalog false "net" 0 rowCommaPrice).item = none := by
  refine ⟨by decide, by decide, by decide, by decide, by decide, by decide⟩

/-!  ### C3 — errors and payload are mutually exclusive  -/

/-- The terminal decision alone already satisfies the mutual-exclusion
invariant. -/
theorem finalize_payload_iff (p : Payload) (s : Summary) :
    resultPayload (finalize p s) = none ↔ resultErrors (finalize p s) ≠ [] := by
  simp only [finalize, resultPayload, resultErrors]
  split
  case isTrue h => simp_all [List.isEmpty_iff]
  case isFalse h => simp_all [List.isEmpty_iff]

/-- C3 (confirmed): the builder returns a payload exactly when the
accumulated `errors` list is empty; with any error the payload is `null`,
and with no error the complete payload is returned. -/
theorem c3_errors_xor_payload (wb : Workbook) (cat : Catalog) (allow : Bool)
    (now : Int) :
    resultPayload (build wb cat allow now) = none ↔
    resultErrors (build wb cat allow now) ≠ [] := by
  rcases wb with ⟨oa, okd, op⟩
  rcases oa with _ | a <;> rcases okd with _ | k <;> rcases op with _ | rows <;>
    try (simp [build, resultPayload, resultErrors, missingSheetErrors]; done)
  simp only [build, buildMain]
  exact finalize_payload_iff _ _

/-!  ### C4 — determinism and time dependence  -/

/-- C4 counterexample: two invocations of the builder on the identical
workbook, catalog responses and flag, at two different wall-clock
instants, give different results — the payload and summary embed the
invocation time (`voucherDate`, `expirationDate`). -/
theorem c4_time_dependence_counterexample :
    build wbOk emptyCatalog true 0 ≠ build wbOk emptyCatalog true 1000 := by
  decide

/-- C4 amended: the builder is a deterministic function of workbook,
catalog responses, flag and the invocation's current time; two
invocations at arbitrary times agree on everything except the
time-derived fields (`voucherDate` and `expirationDate` of the payload,
`voucherDate` of the summary). -/
theorem c4_determinism_amended (wb : Workbook) (cat : Catalog) (allow : Bool)
    (n₁ n₂ : Int) :
    stripTime (build wb cat allow n₁) = stripTime (build wb cat allow n₂) := by
  have hsf : ∀ (p : Payload) (s : Summary),
      stripTime (finalize p s) =
        finalize (stripTimePayload p) (stripTimeSummary s) := by
    intro p s
    simp only [finalize, stripTime, stripTimeSummary]
    congr 1
    split <;> simp
  rcases wb with ⟨oa, okd, op⟩
  rcases oa with _ | a <;> rcases okd with _ | k <;> rcases op with _ | rows <;>
    try rfl
  simp only [build, buildMain, hsf, stripTimePayload, stripTimeSummary]

/-!  ### C7 — type validation  -/

/-- A row whose `type` is the unrecognized word `foo`, otherwise fully
valid. -/
def rowFoo : PosRow :=
  { blankCells with
    type := .str "foo", name := .str "X",
    quantity := .num 1, unitName := .str "Stk", unitPriceAmount := .num 5 }

/-- C7 counterexample: a row whose `type` is `foo` — outside
`{custom, material, service, text}` — is not rejected: it contributes a
line item carrying type `foo` and no error at all. -/
theorem c7_unknown_type_counterexample :
    (processRow emptyCatalog false "net" 0 rowFoo).item.map LineItem.type = some "foo" ∧
    (processRow emptyCatalog false "net" 0 rowFoo).error = none := by
  exact ⟨by decide, by decide⟩

/-- A non-empty trimmed-lowered `type` makes the row non-blank. -/
theorem rowHasAny_of_type (row : PosRow) (h : rowType row ≠ "") :
    rowHasAny row = true := by
  unfold rowHasAny
  have : (rowType row != "") = true := by
    simp [bne_iff_ne, h]
  simp [this]

/-- C7 amended: a missing (empty) `type` is a row error with field `type`
and the row contributes no line item; a non-empty unrecognized `type`,
however, is not rejected — it passes the quantity/unit/price validation
of a priced row and can emit a line item carrying the unrecognized type
(see the counterexample). -/
theorem c7_missing_type_amended (cat : Catalog) (allow : Bool)
    (taxType : String) (i : Nat) (row : PosRow)
    (hA : rowHasAny row = true) (hT : rowType row = "") :
    (processRow cat allow taxType i row).error =
      some ⟨"Positionen", some (i + 2), some "type", "type ist Pflicht."⟩ ∧
    (processRow cat allow taxType i row).item = none := by
  simp only [processRow, hA, hT]
  simp [rowErr]

/-- A row with an empty `type` but a non-empty name. -/
def rowNoType : PosRow := { blankCells with name := .str "X" }

/-- C7 witness: the missing-type theorem applied to a concrete row. -/
theorem c7_missing_type_witness :
    (processRow emptyCatalog false "net" 3 rowNoType).error =
      some ⟨"Positionen", some 5, some "type", "type ist Pflicht."⟩ ∧
    (processRow emptyCatalog false "net" 3 rowNoType).item = none :=
  c7_missing_type_amended emptyCatalog false "net" 3 rowNoType (by decide) (by decide)

/-!  ### C6 — material rows without articleId  -/

/-- A `material` row with empty `articleId` whose quantity is `0`. -/
def rowC6bad : PosRow :=
  { blankCells with
    type := .str "material", quantity := .num 0, unitName := .str "Stk" }

/-- C6 counterexample: for a `material` row with empty `articleId` the
recorded error is *not* always on field `articleId` — with quantity `0`
the single error is on field `qty`, because the quantity check runs
first. -/
theorem c6_material_articleId_counterexample :
    (processRow emptyCatalog false "net" 0 rowC6bad).error.map ErrEntry.field =
      some (some "qty") ∧
    rowType rowC6bad = "material" ∧ rowArticleId rowC6bad = "" ∧
    (processRow emptyCatalog false "net" 0 rowC6bad).item = none := by
  refine ⟨by decide, by decide, by decide, by decide⟩

/-- C6 amended: a `material` row with empty `articleId` contributes no
line item; it yields exactly one error, whose field is `articleId`
provided the row passes the earlier quantity (`> 0`) and `unitName`
checks — otherwise that earlier check's error is reported instead. -/
theorem c6_material_articleId_amended (cat : Catalog) (allow : Bool)
    (taxType : String) (i : Nat) (row : PosRow)
    (hM : rowType row = "material") (hA : rowArticleId row = "")
    (hq : qtyPos (rowQty row) = true) (hu : rowUnitName row ≠ "") :
    (processRow cat allow taxType i row).error =
      some ⟨"Positionen", some (i + 2), some "articleId",
            "articleId ist Pflicht bei type=material/service."⟩ ∧
    (processRow cat allow taxType i row).item = none ∧
    (processRow cat allow taxType i row).warns = [] ∧
    (processRow cat allow taxType i row).autoNamed = [] := by
  have hA2 : rowHasAny row = true := rowHasAny_of_type row (by rw [hM]; simp)
  simp only [processRow, hA2, hM, hA, hq, hu]
  simp [rowErr]

/-- A `material` row with empty `articleId` that passes the quantity and
unit checks. -/
def rowC6ok : PosRow :=
  { blankCells with
    type := .str "material", quantity := .num 1, unitName := .str "Stk" }

/-- C6 witness: the amended theorem applied to a concrete row. -/
theorem c6_material_articleId_witness :
    (processRow emptyCatalog false "net" 0 rowC6ok).error =
      some ⟨"Positionen", some 2, some "articleId",
            "articleId ist Pflicht bei type=material/service."⟩ ∧
    (processRow emptyCatalog false "net" 0 rowC6ok).item = none ∧
    (processRow emptyCatalog false "net" 0 rowC6ok).warns = [] ∧
    (processRow emptyCatalog false "net" 0 rowC6ok).autoNamed = [] :=
  c6_material_articleId_amended emptyCatalog false "net" 0 rowC6ok
    (by decide) (by decide) (by decide) (by decide)

/-!  ### C9 — failed catalog lookups  -/

/-- C9 (confirmed): for any row that reaches the article lookup — a
non-blank row with a recognized-priced shape (non-empty, non-`text` type,
positive quantity, non-empty `unitName`) and a non-empty `articleId` —
whose lookup returns no article (not found or non-2xx), the builder
records exactly one error, with field `articleId`, and the row
contributes no line item, no warning and no auto-name fallback entry,
regardless of the row's own price and of the override flag. -/
theorem c9_lookup_failure (cat : Catalog) (allow : Bool) (taxType : String)
    (i : Nat) (row : PosRow)
    (hT0 : rowType row ≠ "") (hTt : rowType row ≠ "text")
    (hq : qtyPos (rowQty row) = true) (hu : rowUnitName row ≠ "")
    (hArt : rowArticleId row ≠ "") (hCat : cat (rowArticleId row) = none) :
    (processRow cat allow taxType i row).error =
      some ⟨"Positionen", some (i + 2), some "articleId",
            "Artikel konnte nicht geladen werden (articleId=" ++ rowArticleId row ++ ")."⟩ ∧
    (processRow cat allow taxType i row).item = none ∧
    (processRow cat allow taxType i row).warns = [] ∧
    (processRow cat allow taxType i row).autoNamed = [] := by
  have hA2 : rowHasAny row = true := rowHasAny_of_type row hT0
  simp only [processRow, hA2, hT0, hTt, hq, hu, hArt, hCat]
  simp [rowErr, hArt, hCat]

/-- A fully-priced `custom` row pointing at an unknown `articleId`. -/
def rowC9 : PosRow :=
  { blankCells with
    type := .str "custom", articleId := .str "zz", name := .str "X",
    quantity := .num 1, unitName := .str "Stk", unitPriceAmount := .num 5 }

/-- C9 witness: the lookup-failure theorem applied to a concrete priced
`custom` row under `allowPriceOverride = true` and an empty catalog. -/
theorem c9_lookup_failure_witness :
    (processRow emptyCatalog true "net" 0 rowC9).error =
      some ⟨"Positionen", some 2, some "articleId",
            "Artikel konnte nicht geladen werden (articleId=" ++ rowArticleId rowC9 ++ ")."⟩ ∧
    (processRow emptyCatalog true "net" 0 rowC9).item = none ∧
    (processRow emptyCatalog true "net" 0 rowC9).warns = [] ∧
    (processRow emptyCatalog true "net" 0 rowC9).autoNamed = [] :=
  c9_lookup_failure emptyCatalog true "net" 0 rowC9
    (by decide) (by decide) (by decide) (by decide) (by decide) (by decide)

/-!  ### C8 — the price-override flag  -/

/-- For `material` and `service` rows the spreadsheet price is never
used. -/
theorem canUseExcelPrice_material_service (t aid : String) (amount : Option ℚ)
    (allow : Bool) (h : t = "material" ∨ t = "service") :
    canUseExcelPrice t aid amount allow = false := by
  unfold canUseExcelPrice
  rw [if_pos h]
  simp

/-- The loop tail never reads the flag on `material`/`service` rows. -/
theorem processRowTail_flag_irrelevant (taxType : String) (excelRow : Nat)
    (row : PosRow) (artObj : Option Article) (a₁ a₂ : Bool)
    (h : rowType row = "material" ∨ rowType row = "service") :
    processRowTail a₁ taxType excelRow row artObj =
      processRowTail a₂ taxType excelRow row artObj := by
  simp only [processRowTail]
  rw [canUseExcelPrice_material_service _ _ _ a₁ h,
    canUseExcelPrice_material_service _ _ _ a₂ h]

/-- C8 corrected: the flag is ignored not only by `material` rows but
also by `service` rows (whole-row result is flag-independent for both);
it decides the price source exactly for `custom` rows that carry both a
spreadsheet price and an `articleId`; and an absent caller flag resolves
to the process-wide default. -/
theorem c8_price_override_amended :
    (∀ (cat : Catalog) (taxType : String) (i : Nat) (row : PosRow) (a₁ a₂ : Bool),
      (rowType row = "material" ∨ rowType row = "service") →
      processRow cat a₁ taxType i row = processRow cat a₂ taxType i row) ∧
    (∀ (t aid : String) (amount : Option ℚ) (allow : Bool),
      t = "custom" → aid ≠ "" → amount.isSome = true →
      canUseExcelPrice t aid amount allow = allow) ∧
    (∀ d : Bool, resolveAllowPriceOverride none d = d) := by
  refine ⟨?_, ?_, fun d => rfl⟩
  · intro cat taxType i row a₁ a₂ h
    simp only [processRow]
    split_ifs <;> first
      | rfl
      | exact processRowTail_flag_irrelevant taxType (i + 2) row _ a₁ a₂ h
  · intro t aid amount allow ht ha hs
    subst ht
    unfold canUseExcelPrice
    rw [hs]
    cases allow
    case false =>
      rw [if_neg (by simp), if_pos ⟨rfl, ha, rfl⟩]
      rfl
    case true =>
      rw [if_neg (by simp), if_neg (by simp)]
      rfl

/-!  ### C2 / C10 — shape of emitted unit prices  -/

/-- A payload line item's `unitPrice` carries both a `netAmount` and a
`grossAmount` key. -/
def upBothPresent (li : LineItem) : Bool :=
  (li.unitPrice.map (fun up => up.netAmount.isSome && up.grossAmount.isSome)).getD false

/-- The shape of every unit price the builders return: currency `EUR` and
both amount sides present. -/
def upShape (up : UnitPrice) : Prop :=
  up.currency = "EUR" ∧ up.netAmount.isSome = true ∧ up.grossAmount.isSome = true

/-- The invariant of every line item the loop can emit. -/
def itemGood (li : LineItem) : Prop :=
  (li.type ≠ "text" → upBothPresent li = true) ∧
  ∀ up, li.unitPrice = some up → up.currency = "EUR"

theorem buildUnitPriceFromNetGross_shape (net gross tr : Option ℚ)
    (up : UnitPrice) (h : buildUnitPriceFromNetGross net gross tr = some up) :
    upShape up := by
  rcases up with ⟨c, na, ga, trp⟩
  rcases net with _ | n <;> rcases gross with _ | g <;>
    simp [buildUnitPriceFromNetGross, UnitPrice.mk.injEq] at h <;>
    obtain ⟨h1, h2, h3, h4⟩ := h <;>
    simp [upShape, ← h1, ← h2, ← h3]

theorem buildUnitPriceFromExcel_shape (t : String) (a r : ℚ) (up : UnitPrice)
    (h : buildUnitPriceFromExcel t a r = some up) : upShape up := by
  simp only [buildUnitPriceFromExcel] at h
  split at h <;> exact buildUnitPriceFromNetGross_shape _ _ _ _ h

theorem buildUnitPriceFromArticle_shape (o : Option Article) (up : UnitPrice)
    (h : buildUnitPriceFromArticle o = some up) : upShape up := by
  simp only [buildUnitPriceFromArticle] at h
  split at h
  · cases h
  · exact buildUnitPriceFromNetGross_shape _ _ _ _ h

theorem itemGood_of_unitPrice (li : LineItem) (up : UnitPrice)
    (h : li.unitPrice = some up) (hs : upShape up) : itemGood li := by
  constructor
  · intro _
    simp [upBothPresent, h, hs.2.1, hs.2.2]
  · intro up' h'
    rw [h, Option.some.injEq] at h'
    rw [← h']
    exact hs.1

theorem itemGood_text (li : LineItem) (ht : li.type = "text")
    (hu : li.unitPrice = none) : itemGood li := by
  constructor
  · intro hne
    exact absurd ht hne
  · intro up' h'
    rw [hu] at h'
    cases h'

theorem finishItem_item (excelRow : Nat) (li : LineItem) (disc : Option ℚ)
    (typed : String) (warns : List Warn) (autos : List AutoNamed)
    (li' : LineItem)
    (h : (finishItem excelRow li disc typed warns autos).item = some li') :
    li'.unitPrice = li.unitPrice := by
  rcases disc with _ | d <;>
    simp only [finishItem] at h <;>
    split at h <;>
    simp only [rowErr, rowItem] at h
  · exact absurd h (by simp)
  · rw [Option.some.injEq] at h
    rw [← h]
  · exact absurd h (by simp)
  · rw [Option.some.injEq] at h
    rw [← h]

theorem processRowTail_item_good (allow : Bool) (taxType : String)
    (excelRow : Nat) (row : PosRow) (artObj : Option Article) (li : LineItem)
    (h : (processRowTail allow taxType excelRow row artObj).item = some li) :
    itemGood li := by
  simp only [processRowTail] at h
  split at h
  · split at h
    case h_1 => exact absurd h (by simp [rowErr])
    case h_2 up heq =>
      exact itemGood_of_unitPrice li up (finishItem_item _ _ _ _ _ _ _ h)
        (buildUnitPriceFromExcel_shape _ _ _ _ heq)
  · split at h
    · split at h
      case h_1 => exact absurd h (by simp [rowErr])
      case h_2 up heq =>
        exact itemGood_of_unitPrice li up (finishItem_item _ _ _ _ _ _ _ h)
          (buildUnitPriceFromArticle_shape _ _ heq)
    · split at h
      · exact absurd h (by simp [rowErr])
      · split at h
        case h_1 => exact absurd h (by simp [rowErr])
        case h_2 up heq =>
          exact itemGood_of_unitPrice li up (finishItem_item _ _ _ _ _ _ _ h)
            (buildUnitPriceFromExcel_shape _ _ _ _ heq)

theorem processRow_item_good (cat : Catalog) (allow : Bool) (taxType : String)
    (i : Nat) (row : PosRow) (li : LineItem)
    (h : (processRow cat allow taxType i row).item = some li) : itemGood li := by
  simp only [processRow] at h
  split at h
  · exact absurd h (by simp [RowResult.blank])
  split at h
  · exact absurd h (by simp [rowErr])
  split at h
  · simp only [rowItem, Option.some.injEq] at h
    refine itemGood_text li ?_ ?_ <;> rw [← h]
  split at h
  · exact absurd h (by simp [rowErr])
  split at h
  · exact absurd h (by simp [rowErr])
  split at h
  · exact absurd h (by simp [rowErr])
  split at h
  · split at h
    · exact absurd h (by simp [rowErr])
    · exact processRowTail_item_good _ _ _ _ _ _ h
  · split at h
    · exact absurd h (by simp [rowErr])
    · exact processRowTail_item_good _ _ _ _ _ _ h

theorem collectItems_good (cat : Catalog) (allow : Bool) (taxType : String) :
    ∀ (i : Nat) (rows : List PosRow) (li : LineItem),
      li ∈ collectItems (processRows cat allow taxType i rows) → itemGood li := by
  intro i rows
  induction rows generalizing i with
  | nil =>
    intro li h
    simp [processRows, collectItems] at h
  | cons r rest ih =>
    intro li h
    simp only [processRows, collectItems, List.filterMap_cons] at h
    rcases hit : (processRow cat allow taxType i r).item with _ | li0 <;>
      simp only [hit] at h
    · exact ih (i + 1) li h
    · rcases List.mem_cons.mp h with h1 | h2
      · subst h1
        exact processRow_item_good _ _ _ _ _ _ hit
      · exact ih (i + 1) li h2

/-- A successful terminal decision hands back exactly the assembled
payload, and only when the error list is empty. -/
theorem finalize_success (P : Payload) (S : Summary) (p : Payload)
    (h : resultPayload (finalize P S) = some p) : p = P ∧ S.errors = [] := by
  simp only [finalize, resultPayload] at h
  split at h
  case isTrue hE => exact ⟨(Option.some.inj h).symm, List.isEmpty_iff.mp hE⟩
  case isFalse => cases h

/-- Everything the two payload-shape claims need about a successful
build: EUR total currency and the per-item invariant. -/
theorem payload_shape (wb : Workbook) (cat : Catalog) (allow : Bool)
    (now : Int) (p : Payload)
    (hp : resultPayload (build wb cat allow now) = some p) :
    p.totalPriceCurrency = "EUR" ∧ ∀ li ∈ p.lineItems, itemGood li := by
  rcases wb with ⟨oa, okd, op⟩
  rcases oa with _ | a <;> rcases okd with _ | k <;> rcases op with _ | rows <;>
    try (simp [build, resultPayload] at hp; done)
  simp only [build, buildMain] at hp
  obtain ⟨hpP, -⟩ := finalize_success _ _ _ hp
  subst hpP
  refine ⟨rfl, ?_⟩
  intro li hm
  exact collectItems_good cat allow _ 0 rows li hm

/-- C2 corrected: in a successfully built payload, the `unitPrice` of
every non-text line item carries *both* `netAmount` and `grossAmount` —
the builder always derives the missing side from the tax rate — rather
than exactly one of them as the claim states. -/
theorem c2_unit_price_amounts_amended (wb : Workbook) (cat : Catalog)
    (allow : Bool) (now : Int) (p : Payload) (li : LineItem)
    (hp : resultPayload (build wb cat allow now) = some p)
    (hm : li ∈ p.lineItems) (ht : li.type ≠ "text") :
    upBothPresent li = true :=
  ((payload_shape wb cat allow now p hp).2 li hm).1 ht

/-- C2 counterexample: a concrete successful payload whose single
(non-text) line item's `unitPrice` contains both `netAmount = 6.9` and
`grossAmount = 8.21` — refuting "exactly one of the two fields, never
both". -/
theorem c2_both_amounts_counterexample :
    resultPayload (build wbOk emptyCatalog true 0) = some payloadOk ∧
    itemOk ∈ payloadOk.lineItems ∧
    itemOk.type = "custom" ∧
    itemOk.unitPrice.map (fun up => (up.netAmount, up.grossAmount)) =
      some (some (mkRat 69 10), some (mkRat 821 100)) := by
  refine ⟨by decide, by decide, by decide, by decide⟩

/-- C2 witness: the amended theorem applied to the concrete payload. -/
theorem c2_unit_price_amounts_witness : upBothPresent itemOk = true :=
  c2_unit_price_amounts_amended wbOk emptyCatalog true 0 payloadOk itemOk
    (by decide) (by decide) (by decide)

/-- The `Angebot` sheet with its `currency` cell replaced. -/
def setMetadataCurrency (wb : Workbook) (c : CellValue) : Workbook :=
  { wb with angebot := wb.angebot.map (fun a => { a with currency := c }) }

/-- C10 (confirmed): every successful payload prices in the constant
`EUR` — in `totalPrice` and in every line item's `unitPrice` — and the
builder's result does not depend on the metadata sheet's `currency`
value at all (it is never read). -/
theorem c10_currency_eur :
    (∀ (wb : Workbook) (cat : Catalog) (allow : Bool) (now : Int) (p : Payload),
      resultPayload (build wb cat allow now) = some p →
      p.totalPriceCurrency = "EUR" ∧
      ∀ li ∈ p.lineItems, ∀ up, li.unitPrice = some up → up.currency = "EUR") ∧
    (∀ (wb : Workbook) (cat : Catalog) (allow : Bool) (now : Int) (c : CellValue),
      build (setMetadataCurrency wb c) cat allow now = build wb cat allow now) := by
  constructor
  · intro wb cat allow now p hp
    refine ⟨(payload_shape wb cat allow now p hp).1, ?_⟩
    intro li hm up hup
    exact ((payload_shape wb cat allow now p hp).2 li hm).2 up hup
  · intro wb cat allow now c
    rcases wb with ⟨oa, okd, op⟩
    rcases oa with _ | a <;> rcases okd with _ | k <;> rcases op with _ | rows <;>
      rfl

/-- C10 witness: the theorem applied to the concrete build. -/
theorem c10_currency_eur_witness : payloadOk.totalPriceCurrency = "EUR" :=
  (c10_currency_eur.1 wbOk emptyCatalog true 0 payloadOk (by decide)).1

/-- A `service` row with both a spreadsheet price (5) and an `articleId`
pointing at the catalog article `a1` (net price 7). -/
def rowC8 : PosRow :=
  { blankCells with
    type := .str "service", articleId := .str "a1", name := .str "X",
    quantity := .num 1, unitName := .str "Stk", unitPriceAmount := .num 5 }

/-- C8 counterexample: a `service` row with both a spreadsheet price and
an `articleId`, under override flag `true`, is priced from the catalog
(net 7) and not from the sheet (5) — the flag does not decide for
`service` rows, contrary to the claim which exempts only `material`. -/
theorem c8_service_override_counterexample :
    ((processRow catalogA true "net" 0 rowC8).item.bind LineItem.unitPrice).bind
      UnitPrice.netAmount = some 7 ∧
    rowUnitPriceAmount rowC8 = some 5 ∧
    rowType rowC8 = "service" ∧
    (processRow catalogA true "net" 0 rowC8).error = none := by
  refine ⟨by decide, by decide, by decide, by decide⟩

/-- C8 witness: the amended theorem applied to the concrete `service`
row and to concrete `custom`-row pricing inputs. -/
theorem c8_price_override_witness :
    processRow catalogA true "net" 0 rowC8 = processRow catalogA false "net" 0 rowC8 ∧
    canUseExcelPrice "custom" "a1" (some 5) true = true :=
  ⟨c8_price_override_amended.1 catalogA "net" 0 rowC8 true false (Or.inr (by decide)),
   c8_price_override_amended.2.1 "custom" "a1" (some 5) true rfl (by decide) rfl⟩

/-!  ### C5 — row accounting  -/

/-- What one row adds to `lineItems.length + row errors`. -/
def rowContribution (rr : RowResult) : Nat :=
  (if rr.item.isSome then 1 else 0) + (if rr.error.isSome then 1 else 0)

theorem rowContribution_finishItem (excelRow : Nat) (li : LineItem)
    (disc : Option ℚ) (typed : String) (warns : List Warn)
    (autos : List AutoNamed) :
    rowContribution (finishItem excelRow li disc typed warns autos) = 1 := by
  rcases disc with _ | d <;>
    simp only [finishItem] <;>
    split <;>
    simp [rowContribution, rowErr, rowItem]

theorem rowContribution_tail (allow : Bool) (taxType : String) (excelRow : Nat)
    (row : PosRow) (artObj : Option Article) :
    rowContribution (processRowTail allow taxType excelRow row artObj) = 1 := by
  simp only [processRowTail]
  repeat' split
  all_goals
    first
      | exact rowContribution_finishItem _ _ _ _ _ _
      | simp [rowContribution, rowErr]

theorem rowContribution_processRow (cat : Catalog) (allow : Bool)
    (taxType : String) (i : Nat) (row : PosRow) :
    rowContribution (processRow cat allow taxType i row) =
      if rowHasAny row then 1 else 0 := by
  simp only [processRow]
  split
  case isTrue h =>
    have hf : rowHasAny row = false := by simpa using h
    simp [rowContribution, RowResult.blank, hf]
  case isFalse h =>
    have ht : rowHasAny row = true := by simpa using h
    simp only [ht, if_true]
    repeat' split
    all_goals
      first
        | exact rowContribution_tail _ _ _ _ _
        | simp [rowContribution, rowErr, rowItem]

theorem processRows_count (cat : Catalog) (allow : Bool) (taxType : String) :
    ∀ (i : Nat) (rows : List PosRow),
      (collectItems (processRows cat allow taxType i rows)).length +
      (collectErrors (processRows cat allow taxType i rows)).length =
      (rows.filter (fun r => rowHasAny r)).length := by
  intro i rows
  induction rows generalizing i with
  | nil => rfl
  | cons r rest ih =>
    have hc := rowContribution_processRow cat allow taxType i r
    have hrest := ih (i + 1)
    simp only [collectItems, collectErrors] at hrest
    simp only [processRows, collectItems, collectErrors, List.filterMap_cons,
      List.filter_cons]
    rcases hit : (processRow cat allow taxType i r).item with _ | li <;>
      rcases herr : (processRow cat allow taxType i r).error with _ | e <;>
      rcases hhas : rowHasAny r <;>
      simp only [rowContribution, hit, herr, hhas, Option.isSome_some,
        Option.isSome_none, if_true, if_false, Bool.false_eq_true,
        List.length_cons] at hc ⊢ <;>
      omega

/-- C5 (confirmed): over any list of `Positionen` rows, the number of
line items the loop emits plus the number of row-level errors it records
equals the number of non-blank rows (blank rows contribute nothing); in
particular, in a successful build the payload's `lineItems` count equals
the non-blank row count of the `Positionen` sheet. -/
theorem c5_row_accounting :
    (∀ (cat : Catalog) (allow : Bool) (taxType : String) (i : Nat)
        (rows : List PosRow),
      (collectItems (processRows cat allow taxType i rows)).length +
      (collectErrors (processRows cat allow taxType i rows)).length =
      (rows.filter (fun r => rowHasAny r)).length) ∧
    (∀ (wb : Workbook) (cat : Catalog) (allow : Bool) (now : Int)
        (p : Payload) (rows : List PosRow),
      wb.positionen = some rows →
      resultPayload (build wb cat allow now) = some p →
      p.lineItems.length = (rows.filter (fun r => rowHasAny r)).length) := by
  constructor
  · exact fun cat allow taxType => processRows_count cat allow taxType
  · intro wb cat allow now p rows hrows hp
    rcases wb with ⟨oa, okd, op⟩
    rcases oa with _ | a <;> rcases okd with _ | k <;> rcases op with _ | rows0 <;>
      try (simp [build, resultPayload] at hp; done)
    simp only at hrows
    rw [Option.some.injEq] at hrows
    subst hrows
    simp only [build, buildMain] at hp
    obtain ⟨hpP, hE⟩ := finalize_success _ _ _ hp
    subst hpP
    have hcount := processRows_count cat allow (jsTrim (jsStr a.taxType)) 0 rows0
    have hcoll : (collectErrors (processRows cat allow (jsTrim (jsStr a.taxType)) 0 rows0)) = [] := by
      rcases List.append_eq_nil.mp hE with ⟨h12, -⟩
      rcases List.append_eq_nil.mp h12 with ⟨-, h3⟩
      exact h3
    rw [hcoll] at hcount
    simpa using hcount

/-- C5 witness: the payload-level count at the concrete valid workbook. -/
theorem c5_row_accounting_witness :
    payloadOk.lineItems.length =
      ([rowOkItem].filter (fun r => rowHasAny r)).length :=
  c5_row_accounting.2 wbOk emptyCatalog true 0 payloadOk [rowOkItem]
    (by decide) (by decide)

end LexwareTool
